import Mathlib

/-!
Verification model of the HVPS controller repository.

The definitions below are shallow embeddings of the Python source:
`src/hvps/hvps_api.py` (protocol client `HVPSv3`) and
`src/gui/hvps_test_window.py` (test-sequencer window `HVPSTestWindow`).
Python strings are Lean `String`s, Python lists are Lean `List`s, the
dictionaries keyed by channel code are association lists, and methods that
can raise return `Except` or a `state × Option error` pair.
-/

namespace HVPSModel

/-- Python `str.zfill` on a character list: left-pad with zeros to the
requested width, placing the padding after a leading sign character. -/
def zfillList (width : Nat) (l : List Char) : List Char :=
  if width ≤ l.length then l
  else
    match l with
    | [] => List.replicate width '0'
    | c :: rest =>
      if c = '+' ∨ c = '-' then c :: (List.replicate (width - l.length) '0' ++ rest)
      else List.replicate (width - l.length) '0' ++ (c :: rest)

/-- Python `str.zfill` on strings. -/
def zfill (width : Nat) (s : String) : String :=
  String.mk (zfillList width s.data)

/-- Python `c in s` for a single character c. -/
def pyContainsChar (s : String) (c : Char) : Bool :=
  s.data.contains c

/-- Python `s.replace(c, two-quote empty string)`: removes every occurrence of the character. -/
def pyReplaceChar (s : String) (c : Char) : String :=
  String.mk (s.data.filter (fun a => a ≠ c))

/-- Python `s.strip()`: remove whitespace from both ends. -/
def pystrip (s : String) : String :=
  String.mk (((s.data.dropWhile Char.isWhitespace).reverse.dropWhile Char.isWhitespace).reverse)

/-- Errors raised by the protocol client before or during a transaction.
`invalidChannel` carries the channel and the valid-channel tuple from the
Python message; `invalidOperation` is the `set_voltage` on SL error. -/
inductive HVPSError where
  | connectionError : HVPSError
  | invalidChannel (channel : String) (valid : List String) : HVPSError
  | invalidOperation : HVPSError
deriving DecidableEq, Repr

/-- The NAK response codes listed in `hvps_api.py` (the `NAKS` table). -/
def nak_codes : List String := ["NAK", "NAK0", "NAK1", "NAK2", "NAK3", "NAK4"]

/-- `HVPSv3.send_query`: raise if no socket, append a newline when absent,
send, and return the stripped response.  The transport is modelled as a
connected flag and a response oracle mapping the wire request to the raw
device reply; transport write or read failures are outside this model. -/
def send_query (connected : Bool) (respond : String → String) (query : String) :
    Except HVPSError String :=
  if connected = false then .error .connectionError
  else
    let query := if query.data.getLast? = some '\n' then query else query ++ "\n"
    .ok (pystrip (respond query))

/-- `HVPSv3.set_voltage` up to the point of sending: validation and command
construction.  Returns the wire command, or the error raised before any
device communication. -/
def set_voltage (occupied_channels : List String) (channel voltage : String) :
    Except HVPSError String :=
  if occupied_channels.contains channel = false then
    .error (.invalidChannel channel occupied_channels)
  else if channel = "SL" then
    .error .invalidOperation
  else
    let voltage := if voltage = "" then "0" else voltage
    let sv : String × String :=
      if pyContainsChar voltage '-' then ("-", pyReplaceChar voltage '-')
      else ("+", pyReplaceChar voltage '+')
    .ok ("ST" ++ channel ++ "T" ++ sv.1 ++ zfill 5 sv.2)

/-- `HVPSv3.get_voltage` command construction: `RD{channel}V` after the
installed-channel check. -/
def get_voltage_cmd (occupied_channels : List String) (channel : String) :
    Except HVPSError String :=
  if occupied_channels.contains channel = false then
    .error (.invalidChannel channel occupied_channels)
  else .ok ("RD" ++ channel ++ "V")

/-- `HVPSv3.get_current` command construction: `RD{channel}C` after the
installed-channel check. -/
def get_current_cmd (occupied_channels : List String) (channel : String) :
    Except HVPSError String :=
  if occupied_channels.contains channel = false then
    .error (.invalidChannel channel occupied_channels)
  else .ok ("RD" ++ channel ++ "C")

/-- `HVPSv3.enable_wobble`: the installed-channel check (the only check the
source performs) followed by the `ST{channel}WE1A{amplitude zfilled to 3}`
command. -/
def enable_wobble (occupied_channels : List String) (channel amplitude : String) :
    Except HVPSError String :=
  if occupied_channels.contains channel = false then
    .error (.invalidChannel channel
      (occupied_channels.filter (fun s => s ≠ "BM" ∧ s ≠ "SL")))
  else
    .ok ("ST" ++ channel ++ "WE1A" ++ zfill 3 amplitude)

/-- `HVPSv3.disable_wobble`: the installed-channel check followed by the
`ST{channel}WEA0000` command. -/
def disable_wobble (occupied_channels : List String) (channel : String) :
    Except HVPSError String :=
  if occupied_channels.contains channel = false then
    .error (.invalidChannel channel
      (occupied_channels.filter (fun s => s ≠ "BM" ∧ s ≠ "SL")))
  else
    .ok ("ST" ++ channel ++ "WEA0000")

/-- `HVPSv3.set_voltage` end to end: validation, command construction, then
the `send_query` transaction. -/
def run_set_voltage (occupied_channels : List String) (connected : Bool)
    (respond : String → String) (channel voltage : String) : Except HVPSError String :=
  match set_voltage occupied_channels channel voltage with
  | .error e => .error e
  | .ok cmd => send_query connected respond cmd

/-- `HVPSv3.get_voltage` end to end. -/
def run_get_voltage (occupied_channels : List String) (connected : Bool)
    (respond : String → String) (channel : String) : Except HVPSError String :=
  match get_voltage_cmd occupied_channels channel with
  | .error e => .error e
  | .ok cmd => send_query connected respond cmd

/-- `HVPSv3.get_current` end to end. -/
def run_get_current (occupied_channels : List String) (connected : Bool)
    (respond : String → String) (channel : String) : Except HVPSError String :=
  match get_current_cmd occupied_channels channel with
  | .error e => .error e
  | .ok cmd => send_query connected respond cmd

/-- `HVPSv3.enable_wobble` end to end. -/
def run_enable_wobble (occupied_channels : List String) (connected : Bool)
    (respond : String → String) (channel amplitude : String) : Except HVPSError String :=
  match enable_wobble occupied_channels channel amplitude with
  | .error e => .error e
  | .ok cmd => send_query connected respond cmd

/-- `HVPSv3.disable_wobble` end to end. -/
def run_disable_wobble (occupied_channels : List String) (connected : Bool)
    (respond : String → String) (channel : String) : Except HVPSError String :=
  match disable_wobble occupied_channels channel with
  | .error e => .error e
  | .ok cmd => send_query connected respond cmd

/-- `HVPSv3.set_solenoid_current` end to end.  Returns `none` (no command
sent) when SL is not installed.  The Python float round trip
`f-string with num formatted to two decimals` is abstracted as the
`formatted` argument, since no claim depends on the numeric rendering. -/
def run_set_solenoid_current (occupied_channels : List String) (connected : Bool)
    (respond : String → String) (formatted : String) : Option (Except HVPSError String) :=
  if occupied_channels.contains "SL" = false then none
  else some (send_query connected respond ("STSLT00" ++ formatted))

/-- `HVPSv3.enable_high_voltage`: sends `STHV1`. -/
def run_enable_high_voltage (connected : Bool) (respond : String → String) :
    Except HVPSError String :=
  send_query connected respond "STHV1"

/-- `HVPSv3.disable_high_voltage`: sends `STHV0`. -/
def run_disable_high_voltage (connected : Bool) (respond : String → String) :
    Except HVPSError String :=
  send_query connected respond "STHV0"

/-- `HVPSv3.enable_solenoid_current`: sends `STSL1`. -/
def run_enable_solenoid_current (connected : Bool) (respond : String → String) :
    Except HVPSError String :=
  send_query connected respond "STSL1"

/-- `HVPSv3.disable_solenoid_current`: sends `STSL0`. -/
def run_disable_solenoid_current (connected : Bool) (respond : String → String) :
    Except HVPSError String :=
  send_query connected respond "STSL0"

/-- `HVPSv3.get_state`: sends `RDSTA`. -/
def run_get_state (connected : Bool) (respond : String → String) :
    Except HVPSError String :=
  send_query connected respond "RDSTA"

/-!
Device and test-window model (`src/gui/hvps_test_window.py`).

The device is modelled as the state an obedient HVPS reaches by executing
the commands the window sends: the two enable flags, the per-channel
voltage targets, and the solenoid current target.
-/

/-- The device state as driven by the window's commands. -/
structure Device where
  hvEnabled : Bool
  solEnabled : Bool
  voltageTarget : String → String
  solTarget : String

/-- The composite status string the device reports for `RDSTA`, from the
table in the `HVPSv3.get_state` and `get_hv_enable_state` docstrings. -/
def state_string (d : Device) : String :=
  match d.hvEnabled, d.solEnabled with
  | false, false => "STATE0000"
  | true, false => "STATE0001"
  | false, true => "STATE0010"
  | true, true => "STATE0011"

/-- `HVPSTestWindow.get_hv_enable_state`: decode the status string;
false exactly on `STATE0000` and `STATE0010`. -/
def get_hv_enable_state (d : Device) : Bool :=
  let state := state_string d
  if state = "STATE0000" ∨ state = "STATE0010" then false else true

/-- `HVPSTestWindow.get_sol_enable_state`: decode the status string;
false exactly on `STATE0000` and `STATE0001`. -/
def get_sol_enable_state (d : Device) : Bool :=
  let state := state_string d
  if state = "STATE0000" ∨ state = "STATE0001" then false else true

/-- Effect of `HVPSv3.disable_high_voltage` (`STHV0`) on the device. -/
def dev_disable_hv (d : Device) : Device := {d with hvEnabled := false}

/-- Effect of `HVPSv3.enable_high_voltage` (`STHV1`) on the device. -/
def dev_enable_hv (d : Device) : Device := {d with hvEnabled := true}

/-- Effect of `HVPSv3.disable_solenoid_current` (`STSL0`) on the device. -/
def dev_disable_sol (d : Device) : Device := {d with solEnabled := false}

/-- Effect of `HVPSv3.enable_solenoid_current` (`STSL1`) on the device. -/
def dev_enable_sol (d : Device) : Device := {d with solEnabled := true}

/-- Effect of `HVPSv3.set_voltage` on the device: the validation of the
source function, then the channel's target takes the commanded value. -/
def dev_set_voltage (occupied_channels : List String) (d : Device)
    (channel voltage : String) : Except HVPSError Device :=
  match set_voltage occupied_channels channel voltage with
  | .error e => .error e
  | .ok _ =>
    .ok {d with voltageTarget := fun c => if c = channel then voltage else d.voltageTarget c}

/-- Effect of `HVPSv3.set_solenoid_current` on the device: a silent no-op
when SL is not installed, otherwise the solenoid target takes the commanded
value (the two-decimal float rendering on the wire is not modelled; the
target records the commanded string, with the empty string read as 0). -/
def dev_set_solenoid_current (occupied_channels : List String) (d : Device)
    (current : String) : Device :=
  if occupied_channels.contains "SL" = false then d
  else
    let current := if current = "" then "0" else current
    {d with solTarget := current}

/-- `HVPSTestWindow.test_plan`: the fixed if-chain that appends one stage
per installed channel, in the order BM, EX, L1, L2, L3, L4, SL.  Each stage
is identified by its channel code (the gui-builder method it appends sets
`self.channel` to exactly this code). -/
def test_plan (occupied_channels : List String) : List String :=
  (if occupied_channels.contains "BM" then ["BM"] else []) ++
  (if occupied_channels.contains "EX" then ["EX"] else []) ++
  (if occupied_channels.contains "L1" then ["L1"] else []) ++
  (if occupied_channels.contains "L2" then ["L2"] else []) ++
  (if occupied_channels.contains "L3" then ["L3"] else []) ++
  (if occupied_channels.contains "L4" then ["L4"] else []) ++
  (if occupied_channels.contains "SL" then ["SL"] else [])

/-- The master channel order of the spec. -/
def master_channels : List String := ["BM", "EX", "L1", "L2", "L3", "L4", "SL"]

/-- Lookup in a channel-keyed dictionary, modelled as an association list. -/
def dictGet (d : List (String × List String)) (k : String) : Option (List String) :=
  match d with
  | [] => none
  | (k2, v) :: rest => if k2 = k then some v else dictGet rest k

/-- Python dictionary assignment: replace the value of an existing key in
place, append the binding otherwise. -/
def dictSet (d : List (String × List String)) (k : String) (v : List String) :
    List (String × List String) :=
  match d with
  | [] => [(k, v)]
  | (k2, v2) :: rest => if k2 = k then (k, v) :: rest else (k2, v2) :: dictSet rest k v

/-- The keys of a channel-keyed dictionary, in order. -/
def dictKeys (d : List (String × List String)) : List String := d.map Prod.fst

/-- The pre-populated readback and measurement dictionary built in
`HVPSTestWindow.__init__`: six N/A entries per voltage channel, three
for SL. -/
def initial_results : List (String × List String) :=
  [("BM", List.replicate 6 "N/A"), ("EX", List.replicate 6 "N/A"),
   ("L1", List.replicate 6 "N/A"), ("L2", List.replicate 6 "N/A"),
   ("L3", List.replicate 6 "N/A"), ("L4", List.replicate 6 "N/A"),
   ("SL", List.replicate 3 "N/A")]

/-- The mutable state of `HVPSTestWindow` that the claims are about,
together with the modelled device.  `finished` records that
`load_current_stage` ran off the end of the plan and emitted
`test_complete` with the current dictionaries. -/
structure Window where
  occupied_channels : List String
  test_stages : List String
  current_stage_index : Nat
  channel : String
  channel_readbacks : List String
  channel_measurements : List String
  readbacks : List (String × List String)
  measurements : List (String × List String)
  device : Device
  finished : Bool

/-- `HVPSTestWindow.load_current_stage`: enter the stage at the current
index (the gui builder sets `self.channel`), or emit `test_complete` and
close when the index runs past the plan. -/
def load_current_stage (w : Window) : Window :=
  match w.test_stages.get? w.current_stage_index with
  | some ch => {w with channel := ch}
  | none => {w with finished := true}

/-- `HVPSTestWindow.__init__` followed by `test_plan`: sentinel per-stage
buffers sized 3 only when the installed list is exactly `[SL]`, the
pre-populated dictionaries, and entry into the first stage. -/
def init_window (occupied_channels : List String) (d : Device) : Window :=
  let n := if occupied_channels = ["SL"] then 3 else 6
  load_current_stage {
    occupied_channels := occupied_channels,
    test_stages := test_plan occupied_channels,
    current_stage_index := 0,
    channel := "",
    channel_readbacks := List.replicate n "unmeasured",
    channel_measurements := List.replicate n "unmeasured",
    readbacks := initial_results,
    measurements := initial_results,
    device := d,
    finished := false }

/-- The shared shutdown block at the top of `closeEvent` and
`handle_next_btn` (the two code sites are line-for-line identical):
if HV is enabled, disable it and zero the active channel's voltage target;
if the solenoid is enabled, disable it and zero the current target.
A raised validation error stops the sequence, as in the source. -/
def shutdown_outputs (w : Window) : Window × Option HVPSError :=
  let step1 : Window × Option HVPSError :=
    if get_hv_enable_state w.device then
      let d := dev_disable_hv w.device
      match dev_set_voltage w.occupied_channels d w.channel "0" with
      | .error e => ({w with device := d}, some e)
      | .ok d2 => ({w with device := d2}, none)
    else (w, none)
  match step1 with
  | (w1, some e) => (w1, some e)
  | (w1, none) =>
    if get_sol_enable_state w1.device then
      let d := dev_disable_sol w1.device
      ({w1 with device := dev_set_solenoid_current w1.occupied_channels d "0"}, none)
    else (w1, none)

/-- `HVPSTestWindow.closeEvent`: the shutdown block, then the
`window_closed` signal (not modelled). -/
def closeEvent (w : Window) : Window × Option HVPSError :=
  shutdown_outputs w

/-- `HVPSTestWindow.handle_next_btn`: the shutdown block, then store the
per-stage buffers into the dictionaries under the active channel, rebind
the buffers to fresh sentinel lists sized by the active channel (six unless
it is SL), increment the stage index and load the next stage. -/
def handle_next_btn (w : Window) : Window × Option HVPSError :=
  match shutdown_outputs w with
  | (w1, some e) => (w1, some e)
  | (w1, none) =>
    let w2 := {w1 with
      measurements := dictSet w1.measurements w1.channel w1.channel_measurements,
      readbacks := dictSet w1.readbacks w1.channel w1.channel_readbacks}
    let fresh : List String × List String :=
      if w2.channel ≠ "SL" then
        (List.replicate 6 "unmeasured", List.replicate 6 "unmeasured")
      else
        (List.replicate 3 "unmeasured", List.replicate 3 "unmeasured")
    let w3 := {w2 with
      channel_measurements := fresh.1,
      channel_readbacks := fresh.2,
      current_stage_index := w2.current_stage_index + 1}
    (load_current_stage w3, none)

/-- `HVPSTestWindow.handle_disable_hv_btn`: disable HV if it is enabled,
then unconditionally set the active channel's voltage target to zero. -/
def handle_disable_hv_btn (w : Window) : Window × Option HVPSError :=
  let w1 := if get_hv_enable_state w.device then {w with device := dev_disable_hv w.device}
            else w
  match dev_set_voltage w1.occupied_channels w1.device w1.channel "0" with
  | .error e => (w1, some e)
  | .ok d => ({w1 with device := d}, none)

/-- `HVPSTestWindow.handle_disable_sol_btn`: disable the solenoid if it is
enabled; the current target is not touched. -/
def handle_disable_sol_btn (w : Window) : Window × Option HVPSError :=
  if get_sol_enable_state w.device then
    ({w with device := dev_disable_sol w.device}, none)
  else (w, none)

/-- The six `handle_test_pos_..._btn` and `handle_test_neg_..._btn`
handlers, parametrised by the voltage they pass: enable HV unless already
enabled, then set the active channel to the voltage. -/
def handle_test_hv (w : Window) (voltage : String) : Window × Option HVPSError :=
  let d := if get_hv_enable_state w.device then w.device else dev_enable_hv w.device
  match dev_set_voltage w.occupied_channels d w.channel voltage with
  | .error e => ({w with device := d}, some e)
  | .ok d2 => ({w with device := d2}, none)

/-- The three `handle_test_sol_current..._btn` handlers, parametrised by
the current they pass: enable the solenoid unless already enabled, then set
the current target. -/
def handle_test_sol (w : Window) (current : String) : Window × Option HVPSError :=
  let d := if get_sol_enable_state w.device then w.device else dev_enable_sol w.device
  ({w with device := dev_set_solenoid_current w.occupied_channels d current}, none)

/-- The six voltage `handle_..._entered` handlers of each voltage stage,
parametrised by the setpoint index: read back the channel voltage (the
device's reply is the `readback` argument), write the readback and the
typed measurement at the index, zero the channel and disable HV. -/
def handle_voltage_entered (w : Window) (i : Nat) (readback measurement : String) :
    Window × Option HVPSError :=
  if w.occupied_channels.contains w.channel = false then
    (w, some (.invalidChannel w.channel w.occupied_channels))
  else
    let w1 := {w with
      channel_readbacks := w.channel_readbacks.set i readback,
      channel_measurements := w.channel_measurements.set i measurement}
    match dev_set_voltage w1.occupied_channels w1.device w1.channel "0" with
    | .error e => (w1, some e)
    | .ok d => ({w1 with device := dev_disable_hv d}, none)

/-- The three `handle_current..._entered` handlers of the solenoid stage,
parametrised by the setpoint index: read back the current, write the
readback and the typed measurement at the index, zero the current target
and disable the solenoid. -/
def handle_current_entered (w : Window) (i : Nat) (readback measurement : String) :
    Window × Option HVPSError :=
  if w.occupied_channels.contains w.channel = false then
    (w, some (.invalidChannel w.channel w.occupied_channels))
  else
    let w1 := {w with
      channel_readbacks := w.channel_readbacks.set i readback,
      channel_measurements := w.channel_measurements.set i measurement}
    let d := dev_set_solenoid_current w1.occupied_channels w1.device "0"
    ({w1 with device := dev_disable_sol d}, none)

/-- Run one handler on the state of an error-free run, propagating the
first raised error. -/
def stepOk (s : Window × Option HVPSError) (f : Window → Window × Option HVPSError) :
    Window × Option HVPSError :=
  match s with
  | (w, none) => f w
  | e => e

/-- Run a list of handlers in order, stopping at the first error. -/
def runSteps (w : Window) (fs : List (Window → Window × Option HVPSError)) :
    Window × Option HVPSError :=
  fs.foldl stepOk (w, none)

/-- A device with both outputs off and all targets at zero. -/
def dev0 : Device :=
  { hvEnabled := false, solEnabled := false,
    voltageTarget := fun _ => "0", solTarget := "0" }

/-- The spec's end-to-end scenario: installed `[BM, SL]`, drive BM through
its six setpoints (trigger then record each), advance, drive SL through its
three setpoints, advance.  Readback and measurement strings are arbitrary
concrete values. -/
def bm_sl_steps : List (Window → Window × Option HVPSError) :=
  [fun w => handle_test_hv w "100", fun w => handle_voltage_entered w 0 "r1" "m1",
   fun w => handle_test_hv w "500", fun w => handle_voltage_entered w 1 "r2" "m2",
   fun w => handle_test_hv w "1000", fun w => handle_voltage_entered w 2 "r3" "m3",
   fun w => handle_test_hv w "-100", fun w => handle_voltage_entered w 3 "r4" "m4",
   fun w => handle_test_hv w "-500", fun w => handle_voltage_entered w 4 "r5" "m5",
   fun w => handle_test_hv w "-1000", fun w => handle_voltage_entered w 5 "r6" "m6",
   handle_next_btn,
   fun w => handle_test_sol w "0.3", fun w => handle_current_entered w 0 "r7" "m7",
   fun w => handle_test_sol w "1.2", fun w => handle_current_entered w 1 "r8" "m8",
   fun w => handle_test_sol w "2.5", fun w => handle_current_entered w 2 "r9" "m9",
   handle_next_btn]

/-- The final state of the `[BM, SL]` end-to-end scenario. -/
def bm_sl_result : Window × Option HVPSError :=
  runSteps (init_window ["BM", "SL"] dev0) bm_sl_steps

/-!
Heap model of the list-aliasing behaviour of `handle_next_btn` and the
`handle_..._entered` recorders.

Python stores the per-stage lists by reference: the dictionary assignment
`self.readbacks of the channel := self.channel_readbacks` aliases the
buffer object, and the subsequent `self.channel_readbacks := fresh list`
rebinds the attribute to a new object.  To reason about in-place mutation
the lists live in an explicit store indexed by allocation number, the
window attributes and the dictionaries hold addresses, and the recorders
write through the buffer addresses, exactly as the bytecode does.  The
device traffic of `handle_next_btn` touches no list and is omitted here. -/

/-- A heap of allocated string lists with a bump allocator. -/
structure HeapState where
  store : Nat → List String
  next : Nat
  bufReadback : Nat
  bufMeasure : Nat
  dictR : String → Nat
  dictM : String → Nat
  channel : String

/-- Overwrite one heap cell. -/
def hupdate (st : Nat → List String) (a : Nat) (v : List String) : Nat → List String :=
  fun b => if b = a then v else st b

/-- The operations that touch the per-stage lists: a setpoint recording
(`channel_readbacks` at i := readback, `channel_measurements` at i :=
measurement) and a stage advance (`handle_next_btn` lines storing the
buffers in the dictionaries, rebinding them to fresh sentinel lists sized
by the finished channel, and entering the stage of the next channel). -/
inductive HOp where
  | record (i : Nat) (readback measurement : String) : HOp
  | advance (nextChannel : String) : HOp

/-- One operation on the heap-level window state. -/
def hstep (s : HeapState) (op : HOp) : HeapState :=
  match op with
  | .record i rb m =>
    let st1 := hupdate s.store s.bufReadback ((s.store s.bufReadback).set i rb)
    let st2 := hupdate st1 s.bufMeasure ((st1 s.bufMeasure).set i m)
    {s with store := st2}
  | .advance nextCh =>
    let n := if s.channel ≠ "SL" then 6 else 3
    let aM := s.next
    let aR := s.next + 1
    { store := hupdate (hupdate s.store aM (List.replicate n "unmeasured"))
        aR (List.replicate n "unmeasured"),
      next := s.next + 2,
      bufReadback := aR,
      bufMeasure := aM,
      dictR := fun c => if c = s.channel then s.bufReadback else s.dictR c,
      dictM := fun c => if c = s.channel then s.bufMeasure else s.dictM c,
      channel := nextCh }

/-- Run a list of operations. -/
def hrun (s : HeapState) (ops : List HOp) : HeapState :=
  ops.foldl hstep s

/-- Allocation discipline: every live address is below the allocation
counter and the two buffers alias neither each other nor any
dictionary-stored list. -/
def HInv (s : HeapState) : Prop :=
  s.bufReadback < s.next ∧ s.bufMeasure < s.next ∧ s.bufReadback ≠ s.bufMeasure ∧
  ∀ c, s.dictR c < s.next ∧ s.dictM c < s.next ∧
    s.dictR c ≠ s.bufReadback ∧ s.dictR c ≠ s.bufMeasure ∧
    s.dictM c ≠ s.bufReadback ∧ s.dictM c ≠ s.bufMeasure

/-!
Concurrency model of `HVPSv3.send_query` (claim C2).

Two callers share the client.  Each caller's transaction is the code path
of `send_query`: acquire `self.lock`, write the request (`sendall`), read
the response (`recv`), release the lock; the wire records the order of
writes and reads.  Failure-free executions are modelled; a caller runs one
transaction.
-/

/-- One byte-stream event on the shared socket, tagged by caller. -/
inductive WireEvent where
  | write (i : Bool) : WireEvent
  | readResp (i : Bool) : WireEvent
deriving DecidableEq, Repr

/-- Where a caller is inside `send_query`. -/
inductive CallerPhase where
  | idle
  | acquired
  | sent
  | received
  | done
deriving DecidableEq, Repr

/-- The shared lock and both callers' positions. -/
structure LockSys where
  phase : Bool → CallerPhase
  owner : Option Bool

/-- Replace one caller's phase. -/
def updPhase (f : Bool → CallerPhase) (i : Bool) (p : CallerPhase) :
    Bool → CallerPhase :=
  fun j => if j = i then p else f j

/-- Interleaved small-step semantics of the two `send_query` calls.  The
lock can only be taken when free (`threading.Lock` blocks otherwise), the
write and the read happen strictly inside the lock, and the trace grows at
the write and read steps. -/
inductive CStep : LockSys → List WireEvent → LockSys → List WireEvent → Prop where
  | acquire (i : Bool) {s : LockSys} {t : List WireEvent}
      (hp : s.phase i = .idle) (ho : s.owner = none) :
      CStep s t {phase := updPhase s.phase i .acquired, owner := some i} t
  | send (i : Bool) {s : LockSys} {t : List WireEvent}
      (hp : s.phase i = .acquired) :
      CStep s t {s with phase := updPhase s.phase i .sent} (t ++ [.write i])
  | recv (i : Bool) {s : LockSys} {t : List WireEvent}
      (hp : s.phase i = .sent) :
      CStep s t {s with phase := updPhase s.phase i .received} (t ++ [.readResp i])
  | release (i : Bool) {s : LockSys} {t : List WireEvent}
      (hp : s.phase i = .received) :
      CStep s t {phase := updPhase s.phase i .done, owner := none} t

/-- States and traces reachable from two idle callers and a free lock. -/
inductive CReach : LockSys → List WireEvent → Prop where
  | init : CReach {phase := fun _ => .idle, owner := none} []
  | step {s t s2 t2} : CReach s t → CStep s t s2 t2 → CReach s2 t2

/-- A trace is a sequence of complete write-then-read transactions. -/
def completeBlocks : List WireEvent → Bool
  | [] => true
  | .write i :: .readResp j :: rest => (i == j) && completeBlocks rest
  | _ => false

/-- A trace is non-interleaved: complete transactions, possibly followed by
one in-flight write whose response is still pending. -/
def goodTrace : List WireEvent → Bool
  | [] => true
  | [.write _] => true
  | .write i :: .readResp j :: rest => (i == j) && goodTrace rest
  | _ => false

/-- A caller between acquire and release. -/
def phaseBusy (p : CallerPhase) : Bool :=
  match p with
  | .acquired | .sent | .received => true
  | _ => false

/-- Induction invariant for C2: busy callers own the lock, and the trace is
complete blocks, with a trailing unmatched write exactly when some caller
sits between `sendall` and `recv`. -/
def LockInv (s : LockSys) (t : List WireEvent) : Prop :=
  (∀ i, phaseBusy (s.phase i) = true → s.owner = some i) ∧
  ((completeBlocks t = true ∧ ∀ i, s.phase i ≠ .sent) ∨
   (∃ c i, completeBlocks c = true ∧ t = c ++ [.write i] ∧ s.phase i = .sent))

/-- Split an optional leading sign character from a magnitude, as the spec
words it: strip the leading sign, defaulting to a positive sign when no
sign is given. -/
def spec_sign_split (l : List Char) : String × List Char :=
  match l with
  | c :: rest =>
    if c = '-' then ("-", rest)
    else if c = '+' then ("+", rest)
    else ("+", c :: rest)
  | [] => ("+", [])

/-- A well-formed voltage input: after the optional leading sign, the
magnitude consists of digits only (the empty string is allowed; the claim
treats it as zero). -/
def validVoltageInput (v : String) : Bool :=
  (spec_sign_split v.data).2.all Char.isDigit

/-- The voltage command as the specification words it, for the refinement
claim C5: treat empty input as 0, strip the leading sign (defaulting to
positive), zero-pad the magnitude to five digits, and assemble
`ST{channel}T{sign}{5 digits}`. -/
def spec_set_voltage_command (channel voltage : String) : String :=
  let voltage := if voltage = "" then "0" else voltage
  let sm := spec_sign_split voltage.data
  "ST" ++ channel ++ "T" ++ sm.1 ++
    String.mk (List.replicate (5 - sm.2.length) '0' ++ sm.2)

/-- A mid-session state used to instantiate the cleanup theorem: BM stage
active, both outputs energized. -/
def w_c1 : Window :=
  { occupied_channels := ["BM", "SL"],
    test_stages := ["BM", "SL"],
    current_stage_index := 0,
    channel := "BM",
    channel_readbacks := List.replicate 6 "unmeasured",
    channel_measurements := List.replicate 6 "unmeasured",
    readbacks := initial_results,
    measurements := initial_results,
    device := { hvEnabled := true, solEnabled := true,
                voltageTarget := fun _ => "500", solTarget := "2.5" },
    finished := false }

/-- A teardown state the cleanup claim fails on: the SL stage is active
while the device reports HV enabled, so zeroing the active channel's
voltage target raises before the solenoid is handled. -/
def w_c1bad : Window :=
  { occupied_channels := ["BM", "SL"],
    test_stages := ["BM", "SL"],
    current_stage_index := 1,
    channel := "SL",
    channel_readbacks := List.replicate 6 "unmeasured",
    channel_measurements := List.replicate 6 "unmeasured",
    readbacks := initial_results,
    measurements := initial_results,
    device := { hvEnabled := true, solEnabled := true,
                voltageTarget := fun _ => "0", solTarget := "2.5" },
    finished := false }

/-- The solenoid stage with the solenoid energized at a nonzero target,
used against the disable-control claim. -/
def w_c7 : Window :=
  { occupied_channels := ["SL"],
    test_stages := ["SL"],
    current_stage_index := 0,
    channel := "SL",
    channel_readbacks := List.replicate 3 "unmeasured",
    channel_measurements := List.replicate 3 "unmeasured",
    readbacks := initial_results,
    measurements := initial_results,
    device := { hvEnabled := false, solEnabled := true,
                voltageTarget := fun _ => "0", solTarget := "2.5" },
    finished := false }

/-- A voltage stage state used to instantiate the disable-control
theorem. -/
def w_c7ok : Window :=
  { occupied_channels := ["BM", "SL"],
    test_stages := ["BM", "SL"],
    current_stage_index := 0,
    channel := "BM",
    channel_readbacks := List.replicate 6 "unmeasured",
    channel_measurements := List.replicate 6 "unmeasured",
    readbacks := initial_results,
    measurements := initial_results,
    device := { hvEnabled := true, solEnabled := false,
                voltageTarget := fun _ => "1000", solTarget := "0" },
    finished := false }

/-- A heap state satisfying the allocation discipline: the seven
pre-populated dictionary lists live at low addresses, the two buffers are
the latest allocations. -/
def h_c10 : HeapState :=
  { store := fun _ => [],
    next := 9,
    bufReadback := 7,
    bufMeasure := 8,
    dictR := fun _ => 0,
    dictM := fun _ => 1,
    channel := "BM" }

/-!
Theorems.
-/

/-- C3: in the end-to-end `[BM, SL]` session the emitted `readbacks` map
BM to its six recorded values, but SL to a list of length six whose last
three entries are the `unmeasured` sentinel (the buffer reset in
`handle_next_btn` sizes the fresh lists by the stage just finished, not
the next one), and the dictionary keys are all seven channels (they are
pre-populated and never pruned) — refuting the claimed SL length of 3 and
the claimed key set of exactly BM and SL. -/
theorem C3_bm_sl_run :
    bm_sl_result.2 = none ∧
    bm_sl_result.1.finished = true ∧
    dictGet bm_sl_result.1.readbacks "BM" = some ["r1", "r2", "r3", "r4", "r5", "r6"] ∧
    dictGet bm_sl_result.1.readbacks "SL" =
      some ["r7", "r8", "r9", "unmeasured", "unmeasured", "unmeasured"] ∧
    dictKeys bm_sl_result.1.measurements = ["BM", "EX", "L1", "L2", "L3", "L4", "SL"] ∧
    ¬ (dictGet bm_sl_result.1.readbacks "SL").map List.length = some 3 :=
  ⟨rfl, rfl, rfl, rfl, rfl, by decide⟩

/-- C8: `enable_wobble` and `disable_wobble` only check that the channel
is installed, so BM and SL are accepted whenever installed, contradicting
the claimed (and docstring-stated) restriction to EX and L1 through L4;
the encoding `ST{channel}WE1A{3-digit amplitude}` and `ST{channel}WEA0000`
is as claimed. -/
theorem C8_wobble_accepts_bm_sl :
    enable_wobble ["BM", "EX", "SL"] "BM" "12" = .ok "STBMWE1A012" ∧
    enable_wobble ["BM", "EX", "SL"] "SL" "5" = .ok "STSLWE1A005" ∧
    disable_wobble ["BM", "EX", "SL"] "BM" = .ok "STBMWEA0000" ∧
    enable_wobble ["BM", "EX", "SL"] "EX" "12" = .ok "STEXWE1A012" ∧
    disable_wobble ["BM", "EX", "SL"] "EX" = .ok "STEXWEA0000" ∧
    enable_wobble ["L1"] "EX" "1" = .error (.invalidChannel "EX" ["L1"]) :=
  ⟨rfl, rfl, rfl, rfl, rfl, rfl⟩

/-- C4 as stated is false: with SL absent from the installed set,
`set_voltage` on SL raises the invalid-channel error of the first check,
not the SL-specific invalid-operation error. -/
theorem C4_counterexample :
    set_voltage ["BM"] "SL" "5" = .error (.invalidChannel "SL" ["BM"]) ∧
    set_voltage ["BM"] "SL" "5" ≠ .error .invalidOperation := by
  refine ⟨rfl, fun h => ?_⟩
  rw [show set_voltage ["BM"] "SL" "5" = .error (.invalidChannel "SL" ["BM"]) from rfl] at h
  exact absurd (Except.error.inj h) (by decide)

/-- C4 amended: `set_voltage` on channel SL always fails before anything
is sent — with the invalid-operation error when SL is installed, and with
the invalid-channel error when it is not. -/
theorem C4_sl_voltage_always_rejected (occ : List String) (v : String) :
    (occ.contains "SL" = true → set_voltage occ "SL" v = .error .invalidOperation) ∧
    (occ.contains "SL" = false → set_voltage occ "SL" v = .error (.invalidChannel "SL" occ)) := by
  constructor
  · intro h
    have hm : "SL" ∈ occ := by simpa using h
    simp [set_voltage, hm]
  · intro h
    have hm : "SL" ∉ occ := by simpa using h
    simp [set_voltage, hm]

/-- Witness for C4: both branches of the amended statement at concrete
installed sets. -/
theorem C4_sl_voltage_always_rejected_witness :
    set_voltage ["BM", "SL"] "SL" "7" = .error .invalidOperation ∧
    set_voltage ["BM"] "SL" "7" = .error (.invalidChannel "SL" ["BM"]) :=
  ⟨(C4_sl_voltage_always_rejected ["BM", "SL"] "7").1 (by decide),
   (C4_sl_voltage_always_rejected ["BM"] "7").2 (by decide)⟩

/-- C6: the test plan is the fixed master channel order filtered to the
installed channels, it depends only on the membership of the installed
collection and not on its enumeration order, and the claimed example
holds. -/
theorem C6_plan_master_order :
    (∀ occ : List String, test_plan occ = master_channels.filter (fun ch => occ.contains ch)) ∧
    (∀ l1 l2 : List String, (∀ c, c ∈ l1 ↔ c ∈ l2) → test_plan l1 = test_plan l2) ∧
    test_plan ["SL", "BM", "L2"] = ["BM", "L2", "SL"] := by
  have hfilter : ∀ occ : List String,
      test_plan occ = master_channels.filter (fun ch => occ.contains ch) := by
    intro occ
    have hsplit : master_channels =
        ["BM"] ++ ["EX"] ++ ["L1"] ++ ["L2"] ++ ["L3"] ++ ["L4"] ++ ["SL"] := rfl
    rw [hsplit]
    simp only [List.filter_append, List.filter_cons, List.filter_nil]
    simp [test_plan]
  refine ⟨hfilter, ?_, by decide⟩
  intro l1 l2 h
  rw [hfilter l1, hfilter l2]
  refine List.filter_congr ?_
  intro c _
  by_cases hm : c ∈ l1
  · have hm2 : c ∈ l2 := (h c).mp hm
    simp [List.contains, List.elem_iff, hm, hm2]
  · have hm2 : c ∉ l2 := fun hh => hm ((h c).mpr hh)
    simp [List.contains, List.elem_iff, hm, hm2]

/-- Witness for C6: reordering the installed collection leaves the plan
unchanged. -/
theorem C6_plan_master_order_witness :
    test_plan ["SL", "BM", "L2"] = test_plan ["L2", "SL", "BM"] :=
  C6_plan_master_order.2.1 _ _ (by
    intro c
    constructor <;> intro h <;> simp only [List.mem_cons, List.not_mem_nil, or_false] at h ⊢ <;> tauto)

/-- A digit character is not a sign character. -/
theorem digit_not_sign {c : Char} (h : c.isDigit = true) : c ≠ '+' ∧ c ≠ '-' := by
  constructor <;> rintro rfl <;> exact absurd h (by decide)

/-- A list of digit characters does not contain the minus sign. -/
theorem digits_not_mem_minus {l : List Char} (h : l.all Char.isDigit = true) :
    ('-' : Char) ∉ l := by
  intro hm
  have hd := List.all_eq_true.mp h '-' hm
  exact absurd hd (by decide)

/-- Removing a non-digit character from a list of digits is the
identity. -/
theorem digits_filter_ne {l : List Char} (c : Char) (h : l.all Char.isDigit = true)
    (hc : c.isDigit = false) : l.filter (fun a => a ≠ c) = l := by
  refine List.filter_eq_self.mpr ?_
  intro a ha
  have hd : a.isDigit = true := by
    rw [List.all_eq_true] at h
    exact h a ha
  simp only [decide_eq_true_eq]
  rintro rfl
  rw [hd] at hc
  cases hc

/-- Zero-filling a digit list is plain left padding. -/
theorem zfill_digits {l : List Char} (h : l.all Char.isDigit = true) :
    zfillList 5 l = List.replicate (5 - l.length) '0' ++ l := by
  by_cases hlen : 5 ≤ l.length
  · have h0 : 5 - l.length = 0 := Nat.sub_eq_zero_of_le hlen
    simp [zfillList, hlen, h0]
  · cases l with
    | nil => simp [zfillList]
    | cons c cs =>
      have hc : c.isDigit = true := by
        rw [List.all_cons, Bool.and_eq_true] at h
        exact h.1
      have hns := digit_not_sign hc
      have hnot : ¬(c = '+' ∨ c = '-') := by
        rintro (h1 | h1)
        exacts [hns.1 h1, hns.2 h1]
      simp only [zfillList, if_neg hlen, if_neg hnot]

/-- C5: for an installed voltage channel and a well-formed optionally
signed decimal input, `set_voltage` produces exactly the command the
specification describes — leading sign stripped, magnitude zero-padded to
five digits, sign prefixed with positive as the default, empty input read
as zero — and in particular the two claimed examples hold. -/
theorem C5_voltage_encoding (occ : List String) (ch v : String)
    (hin : occ.contains ch = true) (hsl : ch ≠ "SL") (hv : validVoltageInput v = true) :
    set_voltage occ ch v = .ok (spec_set_voltage_command ch v) ∧
    set_voltage ["L1"] "L1" "500" = .ok "STL1T+00500" ∧
    set_voltage ["BM"] "BM" "-1000" = .ok "STBMT-01000" := by
  refine ⟨?_, rfl, rfl⟩
  obtain ⟨l⟩ := v
  have hcond : ¬(occ.contains ch = false) := by
    rw [hin]
    decide
  unfold set_voltage spec_set_voltage_command
  rw [if_neg hcond, if_neg hsl]
  cases l with
  | nil =>
    have he : String.mk ([] : List Char) = "" := rfl
    rw [he]
    simp only [if_pos rfl]
    congr 1
  | cons c cs =>
    have hne : String.mk (c :: cs) ≠ "" := by
      simp [String.ext_iff]
    rw [if_neg hne]
    by_cases hminus : c = '-'
    · subst hminus
      have hdig : cs.all Char.isDigit = true := by
        simpa [validVoltageInput, spec_sign_split] using hv
      have hcont : pyContainsChar (String.mk ('-' :: cs)) '-' = true := by
        simp [pyContainsChar]
      have hrep : pyReplaceChar (String.mk ('-' :: cs)) '-' = String.mk cs := by
        show String.mk (List.filter (fun a => a ≠ '-') ('-' :: cs)) = String.mk cs
        rw [List.filter_cons, if_neg (by simp), digits_filter_ne '-' hdig (by decide)]
      have hz : zfill 5 (String.mk cs) =
          String.mk (List.replicate (5 - cs.length) '0' ++ cs) := by
        show String.mk (zfillList 5 cs) = _
        rw [zfill_digits hdig]
      simp [hcont, hrep, hz, spec_sign_split]
    · by_cases hplus : c = '+'
      · subst hplus
        have hdig : cs.all Char.isDigit = true := by
          simpa [validVoltageInput, spec_sign_split] using hv
        have hcont : pyContainsChar (String.mk ('+' :: cs)) '-' = false := by
          have hnm : ('-' : Char) ∉ '+' :: cs := by
            intro hm
            rcases List.mem_cons.mp hm with h1 | h1
            · exact absurd h1 (by decide)
            · exact digits_not_mem_minus hdig h1
          simpa [pyContainsChar] using hnm
        have hrep : pyReplaceChar (String.mk ('+' :: cs)) '+' = String.mk cs := by
          show String.mk (List.filter (fun a => a ≠ '+') ('+' :: cs)) = String.mk cs
          rw [List.filter_cons, if_neg (by simp), digits_filter_ne '+' hdig (by decide)]
        have hz : zfill 5 (String.mk cs) =
            String.mk (List.replicate (5 - cs.length) '0' ++ cs) := by
          show String.mk (zfillList 5 cs) = _
          rw [zfill_digits hdig]
        simp [hcont, hrep, hz, spec_sign_split]
      · have hdig : (c :: cs).all Char.isDigit = true := by
          simpa [validVoltageInput, spec_sign_split, hminus, hplus] using hv
        have hcont : pyContainsChar (String.mk (c :: cs)) '-' = false := by
          simpa [pyContainsChar] using digits_not_mem_minus hdig
        have hrep : pyReplaceChar (String.mk (c :: cs)) '+' = String.mk (c :: cs) := by
          show String.mk (List.filter (fun a => a ≠ '+') (c :: cs)) = String.mk (c :: cs)
          rw [digits_filter_ne '+' hdig (by decide)]
        have hz : zfill 5 (String.mk (c :: cs)) =
            String.mk (List.replicate (5 - (c :: cs).length) '0' ++ (c :: cs)) := by
          show String.mk (zfillList 5 (c :: cs)) = _
          rw [zfill_digits hdig]
        simp [hcont, hrep, hz, spec_sign_split, hminus, hplus]

/-- Witness for C5: the general encoding statement instantiated at a
concrete installed channel and input. -/
theorem C5_voltage_encoding_witness :
    set_voltage ["L2"] "L2" "-30" = .ok (spec_set_voltage_command "L2" "-30") :=
  (C5_voltage_encoding ["L2"] "L2" "-30" (by decide) (by decide) (by decide)).1

/-- The HV flag decoder inverts the status-string encoding. -/
theorem hv_state_decode (d : Device) : get_hv_enable_state d = d.hvEnabled := by
  cases h1 : d.hvEnabled <;> cases h2 : d.solEnabled <;>
    simp [get_hv_enable_state, state_string, h1, h2]

/-- The solenoid flag decoder inverts the status-string encoding. -/
theorem sol_state_decode (d : Device) : get_sol_enable_state d = d.solEnabled := by
  cases h1 : d.hvEnabled <;> cases h2 : d.solEnabled <;>
    simp [get_sol_enable_state, state_string, h1, h2]

/-- For an installed non-SL channel, `set_voltage` succeeds. -/
theorem set_voltage_ok (occ : List String) (ch v : String)
    (hc : occ.contains ch = true) (hch : ch ≠ "SL") :
    ∃ cmd, set_voltage occ ch v = .ok cmd := by
  unfold set_voltage
  rw [if_neg (by rw [hc]; decide), if_neg hch]
  exact ⟨_, rfl⟩

/-- For an installed non-SL channel, the modelled voltage write updates
exactly that channel's target. -/
theorem dev_set_voltage_ok (occ : List String) (d : Device) (ch v : String)
    (hc : occ.contains ch = true) (hch : ch ≠ "SL") :
    dev_set_voltage occ d ch v =
      .ok {d with voltageTarget := fun c => if c = ch then v else d.voltageTarget c} := by
  obtain ⟨cmd, hcmd⟩ := set_voltage_ok occ ch v hc hch
  unfold dev_set_voltage
  rw [hcmd]

/-- Loading a stage changes only the channel or the finished flag. -/
theorem load_current_stage_frame (w : Window) :
    (load_current_stage w).device = w.device ∧
    (load_current_stage w).occupied_channels = w.occupied_channels := by
  rcases hg : w.test_stages[w.current_stage_index]? with _ | ch <;>
    simp [load_current_stage, List.get?_eq_getElem?, hg]

/-- Effect of the shared shutdown block under the conditions in which the
window runs it: when HV is flagged on, the active channel is an installed
voltage channel, and when the solenoid is flagged on, SL is installed.
Both flags end false, each energized output's target is zeroed, and
nothing else in the window changes. -/
theorem shutdown_outputs_ok (w : Window)
    (hhv : w.device.hvEnabled = true →
      w.occupied_channels.contains w.channel = true ∧ w.channel ≠ "SL")
    (hsol : w.device.solEnabled = true → w.occupied_channels.contains "SL" = true) :
    (shutdown_outputs w).2 = none ∧
    (shutdown_outputs w).1.device.hvEnabled = false ∧
    (shutdown_outputs w).1.device.solEnabled = false ∧
    (w.device.hvEnabled = true →
      (shutdown_outputs w).1.device.voltageTarget w.channel = "0") ∧
    (w.device.solEnabled = true → (shutdown_outputs w).1.device.solTarget = "0") ∧
    (shutdown_outputs w).1.occupied_channels = w.occupied_channels ∧
    (shutdown_outputs w).1.channel = w.channel ∧
    (shutdown_outputs w).1.channel_readbacks = w.channel_readbacks ∧
    (shutdown_outputs w).1.channel_measurements = w.channel_measurements ∧
    (shutdown_outputs w).1.readbacks = w.readbacks ∧
    (shutdown_outputs w).1.measurements = w.measurements ∧
    (shutdown_outputs w).1.current_stage_index = w.current_stage_index ∧
    (shutdown_outputs w).1.test_stages = w.test_stages ∧
    (shutdown_outputs w).1.finished = w.finished := by
  cases hhv0 : w.device.hvEnabled with
  | false =>
    cases hsol0 : w.device.solEnabled with
    | false =>
      simp [shutdown_outputs, hv_state_decode, sol_state_decode, hhv0, hsol0]
    | true =>
      have hSLm : "SL" ∈ w.occupied_channels := by simpa using hsol hsol0
      simp [shutdown_outputs, hv_state_decode, sol_state_decode, hhv0, hsol0,
        dev_disable_sol, dev_set_solenoid_current, hSLm]
  | true =>
    obtain ⟨hc, hch⟩ := hhv hhv0
    cases hsol0 : w.device.solEnabled with
    | false =>
      have hdev : dev_set_voltage w.occupied_channels
          { hvEnabled := false, solEnabled := false,
            voltageTarget := w.device.voltageTarget, solTarget := w.device.solTarget }
          w.channel "0" =
          .ok { hvEnabled := false, solEnabled := false,
                voltageTarget :=
                  fun c => if c = w.channel then "0" else w.device.voltageTarget c,
                solTarget := w.device.solTarget } := by
        simpa using dev_set_voltage_ok w.occupied_channels
          { hvEnabled := false, solEnabled := false,
            voltageTarget := w.device.voltageTarget, solTarget := w.device.solTarget }
          w.channel "0" hc hch
      simp [shutdown_outputs, hv_state_decode, sol_state_decode, hhv0, hsol0,
        dev_disable_hv, hdev]
    | true =>
      have hSLm : "SL" ∈ w.occupied_channels := by simpa using hsol hsol0
      have hdev : dev_set_voltage w.occupied_channels
          { hvEnabled := false, solEnabled := true,
            voltageTarget := w.device.voltageTarget, solTarget := w.device.solTarget }
          w.channel "0" =
          .ok { hvEnabled := false, solEnabled := true,
                voltageTarget :=
                  fun c => if c = w.channel then "0" else w.device.voltageTarget c,
                solTarget := w.device.solTarget } := by
        simpa using dev_set_voltage_ok w.occupied_channels
          { hvEnabled := false, solEnabled := true,
            voltageTarget := w.device.voltageTarget, solTarget := w.device.solTarget }
          w.channel "0" hc hch
      simp [shutdown_outputs, hv_state_decode, sol_state_decode, hhv0, hsol0,
        dev_disable_hv, dev_disable_sol, dev_set_solenoid_current, hSLm, hdev]

/-- When the shutdown block succeeds, `handle_next_btn` succeeds and its
device state is the shutdown block's device state: the dictionary stores,
buffer resets and stage load that follow touch no device state. -/
theorem handle_next_device (w : Window) (h : (shutdown_outputs w).2 = none) :
    (handle_next_btn w).2 = none ∧
    (handle_next_btn w).1.device = (shutdown_outputs w).1.device := by
  have hpair : shutdown_outputs w = ((shutdown_outputs w).1, none) := by
    have he := (Prod.mk.eta (p := shutdown_outputs w)).symm
    rw [h] at he
    exact he
  unfold handle_next_btn
  rw [hpair]
  exact ⟨rfl, (load_current_stage_frame _).1⟩

/-- C1, amended: on window close and on stage advance, both enable flags
are checked and each enabled output is disabled and its target zeroed —
provided that when HV is flagged enabled the active channel is an
installed voltage channel, and when the solenoid is flagged enabled SL is
installed.  Outside those conditions the cleanup raises partway (see the
counterexample) instead of completing. -/
theorem C1_teardown_cleanup (w : Window)
    (hhv : w.device.hvEnabled = true →
      w.occupied_channels.contains w.channel = true ∧ w.channel ≠ "SL")
    (hsol : w.device.solEnabled = true → w.occupied_channels.contains "SL" = true) :
    ((closeEvent w).2 = none ∧
     (closeEvent w).1.device.hvEnabled = false ∧
     (closeEvent w).1.device.solEnabled = false ∧
     (w.device.hvEnabled = true → (closeEvent w).1.device.voltageTarget w.channel = "0") ∧
     (w.device.solEnabled = true → (closeEvent w).1.device.solTarget = "0")) ∧
    ((handle_next_btn w).2 = none ∧
     (handle_next_btn w).1.device.hvEnabled = false ∧
     (handle_next_btn w).1.device.solEnabled = false ∧
     (w.device.hvEnabled = true →
       (handle_next_btn w).1.device.voltageTarget w.channel = "0") ∧
     (w.device.solEnabled = true → (handle_next_btn w).1.device.solTarget = "0")) := by
  obtain ⟨h2, hhv1, hsol1, htgt, hstgt, hrest⟩ := shutdown_outputs_ok w hhv hsol
  obtain ⟨hn2, hndev⟩ := handle_next_device w h2
  refine ⟨⟨h2, hhv1, hsol1, htgt, hstgt⟩, hn2, ?_, ?_, ?_, ?_⟩
  · rw [hndev]
    exact hhv1
  · rw [hndev]
    exact hsol1
  · intro hx
    rw [hndev]
    exact htgt hx
  · intro hx
    rw [hndev]
    exact hstgt hx

/-- C1 as stated is false on one teardown path: closing during the SL
stage while the device reports HV enabled makes the cleanup call
`set_voltage` on SL, which raises before the solenoid is handled — the
solenoid stays enabled at a nonzero target, so the cleanup is not
guaranteed on every exit path. -/
theorem C1_counterexample :
    (closeEvent w_c1bad).2 = some HVPSError.invalidOperation ∧
    (closeEvent w_c1bad).1.device.solEnabled = true ∧
    (closeEvent w_c1bad).1.device.solTarget = "2.5" :=
  ⟨rfl, rfl, rfl⟩

/-- Witness for C1: the amended cleanup at a concrete mid-session state
with both outputs energized during the BM stage. -/
theorem C1_teardown_cleanup_witness :
    (closeEvent w_c1).2 = none ∧
    (closeEvent w_c1).1.device.hvEnabled = false ∧
    (closeEvent w_c1).1.device.solEnabled = false ∧
    (closeEvent w_c1).1.device.voltageTarget "BM" = "0" ∧
    (closeEvent w_c1).1.device.solTarget = "0" ∧
    (handle_next_btn w_c1).2 = none := by
  have h := C1_teardown_cleanup w_c1
    (fun _ => ⟨by decide, by decide⟩) (fun _ => by decide)
  exact ⟨h.1.1, h.1.2.1, h.1.2.2.1, h.1.2.2.2.1 rfl, h.1.2.2.2.2 rfl, h.2.1⟩

/-- C7, amended: the HV disable control disables HV when it is enabled and
always zeroes the active channel's voltage target, and the solenoid
disable control disables the solenoid when it is enabled but does not
touch the current target; neither control alters the stage index, the
per-stage buffers, or the recorded dictionaries. -/
theorem C7_disable_controls (w : Window)
    (hin : w.occupied_channels.contains w.channel = true) (hch : w.channel ≠ "SL") :
    ((handle_disable_hv_btn w).2 = none ∧
     (handle_disable_hv_btn w).1.device.hvEnabled = false ∧
     (handle_disable_hv_btn w).1.device.voltageTarget w.channel = "0" ∧
     (handle_disable_hv_btn w).1.device.solEnabled = w.device.solEnabled ∧
     (handle_disable_hv_btn w).1.device.solTarget = w.device.solTarget ∧
     (handle_disable_hv_btn w).1.current_stage_index = w.current_stage_index ∧
     (handle_disable_hv_btn w).1.channel = w.channel ∧
     (handle_disable_hv_btn w).1.channel_readbacks = w.channel_readbacks ∧
     (handle_disable_hv_btn w).1.channel_measurements = w.channel_measurements ∧
     (handle_disable_hv_btn w).1.readbacks = w.readbacks ∧
     (handle_disable_hv_btn w).1.measurements = w.measurements) ∧
    ((handle_disable_sol_btn w).2 = none ∧
     (handle_disable_sol_btn w).1.device.solEnabled = false ∧
     (handle_disable_sol_btn w).1.device.solTarget = w.device.solTarget ∧
     (handle_disable_sol_btn w).1.device.hvEnabled = w.device.hvEnabled ∧
     (handle_disable_sol_btn w).1.device.voltageTarget = w.device.voltageTarget ∧
     (handle_disable_sol_btn w).1.current_stage_index = w.current_stage_index ∧
     (handle_disable_sol_btn w).1.channel = w.channel ∧
     (handle_disable_sol_btn w).1.channel_readbacks = w.channel_readbacks ∧
     (handle_disable_sol_btn w).1.channel_measurements = w.channel_measurements ∧
     (handle_disable_sol_btn w).1.readbacks = w.readbacks ∧
     (handle_disable_sol_btn w).1.measurements = w.measurements) := by
  constructor
  · cases hhv0 : w.device.hvEnabled with
    | false =>
      have hdev : dev_set_voltage w.occupied_channels w.device w.channel "0" =
          .ok { w.device with
                voltageTarget :=
                  fun c => if c = w.channel then "0" else w.device.voltageTarget c } :=
        dev_set_voltage_ok w.occupied_channels w.device w.channel "0" hin hch
      simp [handle_disable_hv_btn, hv_state_decode, hhv0, hdev]
    | true =>
      have hdev : dev_set_voltage w.occupied_channels
          { hvEnabled := false, solEnabled := w.device.solEnabled,
            voltageTarget := w.device.voltageTarget, solTarget := w.device.solTarget }
          w.channel "0" =
          .ok { hvEnabled := false, solEnabled := w.device.solEnabled,
                voltageTarget :=
                  fun c => if c = w.channel then "0" else w.device.voltageTarget c,
                solTarget := w.device.solTarget } := by
        simpa using dev_set_voltage_ok w.occupied_channels
          { hvEnabled := false, solEnabled := w.device.solEnabled,
            voltageTarget := w.device.voltageTarget, solTarget := w.device.solTarget }
          w.channel "0" hin hch
      simp [handle_disable_hv_btn, hv_state_decode, hhv0, dev_disable_hv, hdev]
  · cases hsol0 : w.device.solEnabled with
    | false =>
      simp [handle_disable_sol_btn, sol_state_decode, hsol0]
    | true =>
      simp [handle_disable_sol_btn, sol_state_decode, hsol0, dev_disable_sol]

/-- C7 as stated is false for the solenoid control: disabling the
energized solenoid leaves its current target at its previous nonzero
value instead of zeroing it. -/
theorem C7_counterexample :
    (handle_disable_sol_btn w_c7).2 = none ∧
    (handle_disable_sol_btn w_c7).1.device.solEnabled = false ∧
    (handle_disable_sol_btn w_c7).1.device.solTarget = "2.5" ∧
    ¬ (handle_disable_sol_btn w_c7).1.device.solTarget = "0" :=
  ⟨rfl, rfl, rfl, by decide⟩

/-- Witness for C7: the amended disable-control behaviour at a concrete
BM-stage state with HV energized. -/
theorem C7_disable_controls_witness :
    (handle_disable_hv_btn w_c7ok).2 = none ∧
    (handle_disable_hv_btn w_c7ok).1.device.hvEnabled = false ∧
    (handle_disable_hv_btn w_c7ok).1.device.voltageTarget "BM" = "0" ∧
    (handle_disable_sol_btn w_c7ok).1.device.solTarget = w_c7ok.device.solTarget := by
  have h := C7_disable_controls w_c7ok (by decide) (by decide)
  exact ⟨h.1.1, h.1.2.1, h.1.2.2.1, h.2.2.2.1⟩

/-- One operation writes only through the current buffer addresses and
fresh allocations: any other allocated cell is untouched. -/
theorem hstep_store_frame (s : HeapState) (op : HOp) (a : Nat)
    (hlt : a < s.next) (hr : a ≠ s.bufReadback) (hm : a ≠ s.bufMeasure) :
    (hstep s op).store a = s.store a := by
  cases op with
  | record i rb m => simp [hstep, hupdate, hr, hm]
  | advance ch =>
    have h1 : a ≠ s.next := Nat.ne_of_lt hlt
    have h2 : a ≠ s.next + 1 := by omega
    simp [hstep, hupdate, h1, h2]

/-- Any run of recordings and advances leaves every already-allocated cell
other than the two current buffers untouched. -/
theorem hrun_frame : ∀ (ops : List HOp) (s : HeapState) (a : Nat),
    a < s.next → a ≠ s.bufReadback → a ≠ s.bufMeasure →
    (hrun s ops).store a = s.store a
  | [], _, _, _, _, _ => rfl
  | op :: ops, s, a, hlt, hr, hm => by
    have hlt2 : a < (hstep s op).next := by
      cases op <;> simp [hstep] <;> omega
    have hr2 : a ≠ (hstep s op).bufReadback := by
      cases op with
      | record i rb m => simpa [hstep] using hr
      | advance ch =>
        simp only [hstep]
        omega
    have hm2 : a ≠ (hstep s op).bufMeasure := by
      cases op with
      | record i rb m => simpa [hstep] using hm
      | advance ch =>
        simp only [hstep]
        omega
    calc (hrun s (op :: ops)).store a = (hrun (hstep s op) ops).store a := rfl
      _ = (hstep s op).store a := hrun_frame ops (hstep s op) a hlt2 hr2 hm2
      _ = s.store a := hstep_store_frame s op a hlt hr hm

/-- The allocation discipline is preserved by every operation; in
particular the advance rebinds the buffers to fresh addresses. -/
theorem hstep_inv (s : HeapState) (op : HOp) (h : HInv s) : HInv (hstep s op) := by
  obtain ⟨h1, h2, h3, h4⟩ := h
  cases op with
  | record i rb m => exact ⟨h1, h2, h3, h4⟩
  | advance ch =>
    refine ⟨by simp [hstep], by simp [hstep], by simp [hstep], fun c => ?_⟩
    obtain ⟨g1, g2, g3, g4, g5, g6⟩ := h4 c
    by_cases hc : c = s.channel <;> simp [hstep, hc] <;> omega

/-- C10: under the allocation discipline, every operation preserves the
discipline, a stage advance rebinds both buffers to addresses distinct
from every dictionary-stored list (including the two just stored), and no
sequence of later recordings or advances ever writes through an address
the dictionaries hold — stored channel results are never mutated in
place. -/
theorem C10_stored_frozen (s : HeapState) (h : HInv s) :
    (∀ op, HInv (hstep s op)) ∧
    (∀ ops c, (hrun s ops).store (s.dictR c) = s.store (s.dictR c) ∧
              (hrun s ops).store (s.dictM c) = s.store (s.dictM c)) ∧
    (∀ ch c, (hstep s (HOp.advance ch)).bufReadback ≠ (hstep s (HOp.advance ch)).dictR c ∧
             (hstep s (HOp.advance ch)).bufMeasure ≠ (hstep s (HOp.advance ch)).dictM c) := by
  obtain ⟨h1, h2, h3, h4⟩ := h
  refine ⟨fun op => hstep_inv s op ⟨h1, h2, h3, h4⟩, ?_, ?_⟩
  · intro ops c
    obtain ⟨g1, g2, g3, g4, g5, g6⟩ := h4 c
    exact ⟨hrun_frame ops s _ g1 g3 g4, hrun_frame ops s _ g2 g5 g6⟩
  · intro ch c
    obtain ⟨g1, g2, g3, g4, g5, g6⟩ := h4 c
    constructor <;> (simp only [hstep]; by_cases hc : c = s.channel <;> simp [hc] <;> omega)

/-- Witness for C10: the discipline holds of a concrete heap state, and a
recording followed by an advance leaves the stored BM readback list
untouched. -/
theorem C10_stored_frozen_witness :
    HInv h_c10 ∧
    (hrun h_c10 [HOp.record 0 "x" "y", HOp.advance "EX"]).store (h_c10.dictR "BM") =
      h_c10.store (h_c10.dictR "BM") := by
  have hinv : HInv h_c10 :=
    ⟨by decide, by decide, by decide, fun c => by simp [h_c10]⟩
  exact ⟨hinv,
    ((C10_stored_frozen h_c10 hinv).2.1 [HOp.record 0 "x" "y", HOp.advance "EX"] "BM").1⟩

/-- A trace of complete transactions is non-interleaved, and stays so
after one trailing in-flight write. -/
theorem blocks_good : ∀ t : List WireEvent, completeBlocks t = true →
    goodTrace t = true ∧ ∀ i, goodTrace (t ++ [WireEvent.write i]) = true
  | [], _ => ⟨rfl, fun _ => rfl⟩
  | [e], h => by cases e <;> simp [completeBlocks] at h
  | .write a :: .readResp b :: rest, h => by
    simp only [completeBlocks, Bool.and_eq_true] at h
    have ih := blocks_good rest h.2
    constructor
    · simp only [goodTrace, Bool.and_eq_true]
      exact ⟨h.1, ih.1⟩
    · intro i
      simp only [List.cons_append, goodTrace, Bool.and_eq_true]
      exact ⟨h.1, ih.2 i⟩
  | .write a :: .write b :: rest, h => by simp [completeBlocks] at h
  | .readResp a :: e :: rest, h => by simp [completeBlocks] at h

/-- Appending one complete transaction preserves complete-block shape. -/
theorem blocks_append : ∀ (t : List WireEvent) (i : Bool), completeBlocks t = true →
    completeBlocks (t ++ [WireEvent.write i, WireEvent.readResp i]) = true
  | [], i, _ => by simp [completeBlocks]
  | [e], i, h => by cases e <;> simp [completeBlocks] at h
  | .write a :: .readResp b :: rest, i, h => by
    simp only [completeBlocks, Bool.and_eq_true] at h
    simp only [List.cons_append, completeBlocks, Bool.and_eq_true]
    exact ⟨h.1, blocks_append rest i h.2⟩
  | .write a :: .write b :: rest, i, h => by simp [completeBlocks] at h
  | .readResp a :: e :: rest, i, h => by simp [completeBlocks] at h

/-- The lock invariant is preserved by every step of the two-caller
`send_query` semantics. -/
theorem lockInv_step {s : LockSys} {t : List WireEvent} {s2 : LockSys}
    {t2 : List WireEvent} (hinv : LockInv s t) (hst : CStep s t s2 t2) :
    LockInv s2 t2 := by
  obtain ⟨hown, htr⟩ := hinv
  cases hst with
  | acquire i hp ho =>
    constructor
    · intro j hb
      by_cases hji : j = i
      · subst hji
        rfl
      · simp only [updPhase, if_neg hji] at hb
        have hj := hown j hb
        rw [ho] at hj
        exact absurd hj (by simp)
    · rcases htr with ⟨hc, hns⟩ | ⟨c, k, hc, htk, hpk⟩
      · left
        refine ⟨hc, fun j => ?_⟩
        by_cases hji : j = i
        · subst hji
          simp [updPhase]
        · simp only [updPhase, if_neg hji]
          exact hns j
      · exfalso
        have hk := hown k (by simp [phaseBusy, hpk])
        rw [ho] at hk
        exact absurd hk (by simp)
  | send i hp =>
    have hoi : s.owner = some i := hown i (by simp [phaseBusy, hp])
    constructor
    · intro j hb
      by_cases hji : j = i
      · subst hji
        exact hoi
      · simp only [updPhase, if_neg hji] at hb
        exact hown j hb
    · rcases htr with ⟨hc, hns⟩ | ⟨c, k, hc, htk, hpk⟩
      · right
        exact ⟨t, i, hc, rfl, by simp [updPhase]⟩
      · exfalso
        have hok := hown k (by simp [phaseBusy, hpk])
        rw [hoi] at hok
        injection hok with hik
        subst hik
        rw [hp] at hpk
        cases hpk
  | recv i hp =>
    have hoi : s.owner = some i := hown i (by simp [phaseBusy, hp])
    constructor
    · intro j hb
      by_cases hji : j = i
      · subst hji
        exact hoi
      · simp only [updPhase, if_neg hji] at hb
        exact hown j hb
    · left
      rcases htr with ⟨hc, hns⟩ | ⟨c, k, hc, htk, hpk⟩
      · exact absurd hp (hns i)
      · have hok := hown k (by simp [phaseBusy, hpk])
        rw [hoi] at hok
        injection hok with hik
        subst hik
        constructor
        · rw [htk]
          have hb := blocks_append c i hc
          simpa [List.append_assoc] using hb
        · intro j
          by_cases hji : j = i
          · subst hji
            simp [updPhase]
          · simp only [updPhase, if_neg hji]
            intro hj
            have hjown := hown j (by simp [phaseBusy, hj])
            rw [hoi] at hjown
            injection hjown with hij
            exact hji hij.symm
  | release i hp =>
    have hoi : s.owner = some i := hown i (by simp [phaseBusy, hp])
    constructor
    · intro j hb
      by_cases hji : j = i
      · subst hji
        simp [updPhase, phaseBusy] at hb
      · simp only [updPhase, if_neg hji] at hb
        have hjown := hown j hb
        rw [hoi] at hjown
        injection hjown with hij
        exact absurd hij.symm hji
    · left
      rcases htr with ⟨hc, hns⟩ | ⟨c, k, hc, htk, hpk⟩
      · refine ⟨hc, fun j => ?_⟩
        by_cases hji : j = i
        · subst hji
          simp [updPhase]
        · simp only [updPhase, if_neg hji]
          exact hns j
      · exfalso
        have hok := hown k (by simp [phaseBusy, hpk])
        rw [hoi] at hok
        injection hok with hik
        subst hik
        rw [hp] at hpk
        cases hpk

/-- Every reachable state of the two-caller semantics satisfies the lock
invariant. -/
theorem lockInv_reach {s : LockSys} {t : List WireEvent} (h : CReach s t) :
    LockInv s t := by
  induction h with
  | init =>
    refine ⟨fun i hb => ?_, Or.inl ⟨rfl, fun i => by simp⟩⟩
    simp [phaseBusy] at hb
  | step hr hst ih => exact lockInv_step ih hst

/-- C2: in every reachable execution of two concurrent `send_query` calls
the wire trace is non-interleaved — each call's write and read form a
contiguous block, so one call's full transaction completes before the
other call's write begins. -/
theorem C2_send_query_serialized {s : LockSys} {t : List WireEvent}
    (h : CReach s t) : goodTrace t = true := by
  obtain ⟨-, htr⟩ := lockInv_reach h
  rcases htr with ⟨hc, -⟩ | ⟨c, i, hc, htk, -⟩
  · exact (blocks_good t hc).1
  · rw [htk]
    exact (blocks_good c hc).2 i

/-- Witness for C2: a concrete reachable trace with one in-flight write is
non-interleaved. -/
theorem C2_send_query_serialized_witness :
    goodTrace [WireEvent.write true] = true := by
  have h0 : CReach { phase := fun _ => CallerPhase.idle, owner := none } [] :=
    CReach.init
  have h1 : CReach { phase := updPhase (fun _ => CallerPhase.idle) true CallerPhase.acquired,
                     owner := some true } [] :=
    CReach.step h0 (CStep.acquire true rfl rfl)
  have h2 := CReach.step h1 (CStep.send true rfl)
  exact C2_send_query_serialized h2

/-- C9: with a bound socket, `send_query` returns the stripped device
response as a successful result whatever that response is — including
every NAK code — and every operation built on it (the fixed-command
enables, disables and reads, the validated setters and wobble commands)
passes the stripped response through as success: no operation inspects
the response content or raises on it. -/
theorem C9_nak_transparent :
    (∀ r : String, send_query true (fun _ => r) "RDSTA" = .ok (pystrip r)) ∧
    (∀ nak, nak ∈ nak_codes →
      send_query true (fun _ => nak) "RDSTA" = .ok nak) ∧
    (∀ respond, run_enable_high_voltage true respond = .ok (pystrip (respond "STHV1\n"))) ∧
    (∀ respond, run_disable_high_voltage true respond = .ok (pystrip (respond "STHV0\n"))) ∧
    (∀ respond, run_enable_solenoid_current true respond =
      .ok (pystrip (respond "STSL1\n"))) ∧
    (∀ respond, run_disable_solenoid_current true respond =
      .ok (pystrip (respond "STSL0\n"))) ∧
    (∀ respond, run_get_state true respond = .ok (pystrip (respond "RDSTA\n"))) ∧
    (∀ respond (occ : List String) (ch : String), occ.contains ch = true →
      ∃ q, run_get_voltage occ true respond ch = .ok (pystrip (respond q))) ∧
    (∀ respond (occ : List String) (ch : String), occ.contains ch = true →
      ∃ q, run_get_current occ true respond ch = .ok (pystrip (respond q))) ∧
    (∀ respond (occ : List String) (ch v : String),
      occ.contains ch = true → ch ≠ "SL" →
      ∃ q, run_set_voltage occ true respond ch v = .ok (pystrip (respond q))) ∧
    (∀ respond (occ : List String) (ch a : String), occ.contains ch = true →
      ∃ q, run_enable_wobble occ true respond ch a = .ok (pystrip (respond q))) ∧
    (∀ respond (occ : List String) (ch : String), occ.contains ch = true →
      ∃ q, run_disable_wobble occ true respond ch = .ok (pystrip (respond q))) ∧
    (∀ respond (occ : List String) (f : String), occ.contains "SL" = true →
      ∃ q, run_set_solenoid_current occ true respond f =
        some (.ok (pystrip (respond q)))) := by
  refine ⟨fun r => rfl, ?_, fun respond => rfl, fun respond => rfl, fun respond => rfl,
    fun respond => rfl, fun respond => rfl, ?_, ?_, ?_, ?_, ?_, ?_⟩
  · intro nak hnak
    fin_cases hnak <;> rfl
  · intro respond occ ch h
    unfold run_get_voltage get_voltage_cmd
    rw [if_neg (by rw [h]; decide)]
    exact ⟨_, rfl⟩
  · intro respond occ ch h
    unfold run_get_current get_current_cmd
    rw [if_neg (by rw [h]; decide)]
    exact ⟨_, rfl⟩
  · intro respond occ ch v h hch
    unfold run_set_voltage set_voltage
    rw [if_neg (by rw [h]; decide), if_neg hch]
    exact ⟨_, rfl⟩
  · intro respond occ ch a h
    unfold run_enable_wobble enable_wobble
    rw [if_neg (by rw [h]; decide)]
    exact ⟨_, rfl⟩
  · intro respond occ ch h
    unfold run_disable_wobble disable_wobble
    rw [if_neg (by rw [h]; decide)]
    exact ⟨_, rfl⟩
  · intro respond occ f h
    unfold run_set_solenoid_current
    rw [if_neg (by rw [h]; decide)]
    exact ⟨_, rfl⟩

/-- Witness for C9: the pass-through at a concrete NAK response and a
concrete validated operation. -/
theorem C9_nak_transparent_witness :
    send_query true (fun _ => "NAK3") "RDSTA" = .ok "NAK3" ∧
    (∃ q : String, run_set_voltage ["L1"] true (fun _ => " NAK4 ") "L1" "500" =
      .ok (pystrip " NAK4 ")) := by
  refine ⟨C9_nak_transparent.2.1 "NAK3" (by decide), ?_⟩
  exact C9_nak_transparent.2.2.2.2.2.2.2.2.2.1 (fun _ => " NAK4 ") ["L1"] "L1" "500"
    (by decide) (by decide)

end HVPSModel
